import Mathlib

/-!
Verification of `src/sandbox/isolation/seccomp/seccomp-net-block.c`.

The C program parses an architecture argument ("x64" or "arm64"), builds a
libseccomp policy (default action ALLOW; two rules denying `socket` with
`EPERM` when arg0 is `AF_INET` (2) or `AF_INET6` (10)), and exports the
compiled BPF filter to an output file.

Part A embeds `main`'s control flow: the outcomes of the external calls
(libseccomp return codes, `open` success, `seccomp_export_bpf` return code)
are inputs, and the observable effects (exit code, error message, file and
file-descriptor state) are the output.

Part B models the filter compiler itself.  The compilation from policy to
BPF instructions is performed by libseccomp, whose code is not part of this
repository; it is modelled from the specification's algorithm (§4.2–§4.3):
architecture check first, then per-rule syscall-number dispatch, per-argument
64-bit equality split into high/low 32-bit comparisons, first match wins,
default action after all rules, terminal kill for architecture mismatch.
-/

namespace SeccompNetBlock

/-- Target architectures accepted by the program (`x64`, `arm64`). -/
inductive Arch
  | x86_64
  | aarch64
deriving DecidableEq, Repr

/-- Architecture parsing from `main`:
`strcmp(arch_str, "x64") == 0` selects `SCMP_ARCH_X86_64`,
`strcmp(arch_str, "arm64") == 0` selects `SCMP_ARCH_AARCH64`,
anything else is rejected. -/
def parseArch (s : String) : Option Arch :=
  if s = "x64" then some Arch.x86_64
  else if s = "arm64" then some Arch.aarch64
  else none

/-- Numeric architecture tokens: `SCMP_ARCH_X86_64` (`AUDIT_ARCH_X86_64`)
and `SCMP_ARCH_AARCH64` (`AUDIT_ARCH_AARCH64`). -/
def scmpArchToken : Arch → Nat
  | Arch.x86_64 => 0xc000003e
  | Arch.aarch64 => 0xc00000b7

/-- Syscall number of `socket` on each architecture
(resolved by `SCMP_SYS(socket)` per target architecture). -/
def socketNr : Arch → Nat
  | Arch.x86_64 => 41
  | Arch.aarch64 => 198

/-- The distinct failure paths of `main`, one per `return 1` site. -/
inductive MainError
  | usage
  | unknownArchitecture
  | initFailed
  | archRemoveFailed
  | archAddFailed
  | ruleInetFailed
  | ruleInet6Failed
  | openFailed
  | exportFailed
deriving DecidableEq, Repr

/-- Results of the external calls `main` makes, in program order.
`argc` counts the program name plus the command-line arguments, as in C. -/
structure Env where
  argc : Nat
  archStr : String
  initOk : Bool
  archRemoveRc : Int
  archAddRc : Int
  ruleInetRc : Int
  ruleInet6Rc : Int
  openOk : Bool
  exportRc : Int
deriving DecidableEq, Repr

/-- Observable final state of one run of `main`. -/
structure Outcome where
  exitCode : Nat
  error : Option MainError
  /-- an error message was printed to stderr (`fprintf(stderr, ...)`) -/
  stderrLogged : Bool
  /-- the success message was printed to stdout (`printf`) -/
  stdoutLogged : Bool
  parsedArch : Option Arch
  /-- `seccomp_init` was called and returned a context -/
  ctxInitialized : Bool
  /-- `seccomp_release` was called on the context -/
  ctxReleased : Bool
  /-- `open(output_file, O_CREAT|O_WRONLY|O_TRUNC, 0644)` returned a valid fd -/
  fdOpened : Bool
  /-- `close(fd)` was called -/
  fdClosed : Bool
  /-- a file exists at the output path at exit (created or truncated by this run) -/
  filePresent : Bool
  /-- the full filter was exported into the file (`seccomp_export_bpf` succeeded) -/
  fileComplete : Bool
deriving DecidableEq, Repr

/-- `ENOENT` (the one `seccomp_arch_remove` error `main` tolerates). -/
def enoent : Int := 2

/-- The control flow of `main`, branch for branch. -/
def runMain (e : Env) : Outcome :=
  if e.argc ≠ 3 then
    { exitCode := 1, error := some MainError.usage, stderrLogged := true,
      stdoutLogged := false, parsedArch := none, ctxInitialized := false,
      ctxReleased := false, fdOpened := false, fdClosed := false,
      filePresent := false, fileComplete := false }
  else
    match parseArch e.archStr with
    | none =>
      { exitCode := 1, error := some MainError.unknownArchitecture,
        stderrLogged := true, stdoutLogged := false, parsedArch := none,
        ctxInitialized := false, ctxReleased := false, fdOpened := false,
        fdClosed := false, filePresent := false, fileComplete := false }
    | some a =>
      if ¬ e.initOk then
        { exitCode := 1, error := some MainError.initFailed,
          stderrLogged := true, stdoutLogged := false, parsedArch := some a,
          ctxInitialized := false, ctxReleased := false, fdOpened := false,
          fdClosed := false, filePresent := false, fileComplete := false }
      else if e.archRemoveRc < 0 ∧ e.archRemoveRc ≠ -enoent then
        { exitCode := 1, error := some MainError.archRemoveFailed,
          stderrLogged := true, stdoutLogged := false, parsedArch := some a,
          ctxInitialized := true, ctxReleased := true, fdOpened := false,
          fdClosed := false, filePresent := false, fileComplete := false }
      else if e.archAddRc < 0 then
        { exitCode := 1, error := some MainError.archAddFailed,
          stderrLogged := true, stdoutLogged := false, parsedArch := some a,
          ctxInitialized := true, ctxReleased := true, fdOpened := false,
          fdClosed := false, filePresent := false, fileComplete := false }
      else if e.ruleInetRc < 0 then
        { exitCode := 1, error := some MainError.ruleInetFailed,
          stderrLogged := true, stdoutLogged := false, parsedArch := some a,
          ctxInitialized := true, ctxReleased := true, fdOpened := false,
          fdClosed := false, filePresent := false, fileComplete := false }
      else if e.ruleInet6Rc < 0 then
        { exitCode := 1, error := some MainError.ruleInet6Failed,
          stderrLogged := true, stdoutLogged := false, parsedArch := some a,
          ctxInitialized := true, ctxReleased := true, fdOpened := false,
          fdClosed := false, filePresent := false, fileComplete := false }
      else if ¬ e.openOk then
        { exitCode := 1, error := some MainError.openFailed,
          stderrLogged := true, stdoutLogged := false, parsedArch := some a,
          ctxInitialized := true, ctxReleased := true, fdOpened := false,
          fdClosed := false, filePresent := false, fileComplete := false }
      else if e.exportRc < 0 then
        { exitCode := 1, error := some MainError.exportFailed,
          stderrLogged := true, stdoutLogged := false, parsedArch := some a,
          ctxInitialized := true, ctxReleased := true, fdOpened := true,
          fdClosed := true, filePresent := true, fileComplete := false }
      else
        { exitCode := 0, error := none, stderrLogged := false,
          stdoutLogged := true, parsedArch := some a, ctxInitialized := true,
          ctxReleased := true, fdOpened := true, fdClosed := true,
          filePresent := true, fileComplete := true }

/-- All the steps of `main` that must succeed for exit code 0:
two command-line arguments, a known architecture, context initialization,
architecture configuration (where `seccomp_arch_remove` returning `-ENOENT`
is tolerated), both rule additions, the `open`, and the export. -/
def allStepsOk (e : Env) : Prop :=
  e.argc = 3 ∧ (parseArch e.archStr).isSome ∧ e.initOk = true ∧
  (0 ≤ e.archRemoveRc ∨ e.archRemoveRc = -enoent) ∧
  0 ≤ e.archAddRc ∧ 0 ≤ e.ruleInetRc ∧ 0 ≤ e.ruleInet6Rc ∧
  e.openOk = true ∧ 0 ≤ e.exportRc

instance (e : Env) : Decidable (allStepsOk e) := by
  unfold allStepsOk; infer_instance

/-- The steps of `main` that precede opening the output file:
argument validation, architecture parsing, context initialization,
architecture configuration, and both rule additions. -/
def stepsBeforeOpenOk (e : Env) : Prop :=
  e.argc = 3 ∧ (parseArch e.archStr).isSome ∧ e.initOk = true ∧
  (0 ≤ e.archRemoveRc ∨ e.archRemoveRc = -enoent) ∧
  0 ≤ e.archAddRc ∧ 0 ≤ e.ruleInetRc ∧ 0 ≤ e.ruleInet6Rc

instance (e : Env) : Decidable (stepsBeforeOpenOk e) := by
  unfold stepsBeforeOpenOk; infer_instance

/-- Filter action (spec §3): `Allow`, `Deny(errorCode)`, `Trap`, `Kill`. -/
inductive Action
  | allow
  | deny (errorCode : Nat)
  | trap
  | kill
deriving DecidableEq, Repr

/-- Argument comparison (spec §3): argument position and the unsigned 64-bit
value it must equal (the only operator is equality). -/
structure ArgumentComparison where
  argumentIndex : Nat
  value : Nat
deriving DecidableEq, Repr

/-- A rule (spec §3): resolved syscall number, ordered comparisons that must
all match, and the action taken on a full match. -/
structure Rule where
  syscallNumber : Nat
  comparisons : List ArgumentComparison
  action : Action
deriving DecidableEq, Repr

/-- A policy (spec §3): target architecture, default action, ordered rules. -/
structure Policy where
  architecture : Arch
  defaultAction : Action
  rules : List Rule
deriving DecidableEq, Repr

/-- The fields of the syscall context a filter instruction can load:
the architecture token, the syscall number, or the low/high 32-bit half of a
64-bit syscall argument. -/
inductive BpfField
  | archToken
  | syscallNr
  | argLow (i : Nat)
  | argHigh (i : Nat)
deriving DecidableEq, Repr

/-- One compiled instruction (spec §3): load a field into the accumulator,
compare the accumulator to a constant and branch by instruction-count
offsets, or return an action. -/
inductive Instr
  | ld (f : BpfField)
  | jeq (k : Nat) (jt : Nat) (jf : Nat)
  | ret (a : Action)
deriving DecidableEq, Repr

/-- Modelled from the spec: the per-comparison instruction block of §4.2
step 3.  libseccomp performs this compilation (`seccomp_rule_add` /
`seccomp_export_bpf`); its code is not part of this repository.  A 64-bit
comparison value is split into a high-word and a low-word 32-bit compare;
a mismatch of either half jumps past the rest of the rule block (`n` is the
rule's comparison count, `j` this comparison's 0-based position, so the
remaining block after the high/low jump is `4*(n-j)-1` resp. `4*(n-j)-3`
instructions long). -/
def compileComparison (n j : Nat) (c : ArgumentComparison) : List Instr :=
  [ Instr.ld (BpfField.argHigh c.argumentIndex),
    Instr.jeq (c.value / 2 ^ 32 % 2 ^ 32) 0 (4 * (n - j) - 1),
    Instr.ld (BpfField.argLow c.argumentIndex),
    Instr.jeq (c.value % 2 ^ 32) 0 (4 * (n - j) - 3) ]

/-- Modelled from the spec: one rule's block (§4.2 step 2–4).  Load the
syscall number; on mismatch jump past the block (`4*n+1` instructions
remain after the jump); on match fall through into the comparison chain;
after the last comparison matches, return the rule's action. -/
def compileRule (r : Rule) : List Instr :=
  let n := r.comparisons.length
  [ Instr.ld BpfField.syscallNr, Instr.jeq r.syscallNumber 0 (4 * n + 1) ]
  ++ (r.comparisons.enum.map fun p => compileComparison n p.1 p.2).flatten
  ++ [ Instr.ret r.action ]

/-- Modelled from the spec: the compiler of §4.2.  Instruction 0 loads the
architecture token; instruction 1 compares it to the policy's target, and on
mismatch jumps over the whole body to the terminal kill instruction at
program end; the body is the rule blocks in policy order followed by the
default-action return. -/
def compile (p : Policy) : List Instr :=
  let body := (p.rules.map compileRule).flatten ++ [Instr.ret p.defaultAction]
  Instr.ld BpfField.archToken
  :: Instr.jeq (scmpArchToken p.architecture) 0 body.length
  :: body ++ [Instr.ret Action.kill]

/-- One syscall invocation as seen by the filter: architecture token,
syscall number, and the six 64-bit argument values. -/
structure SyscallCtx where
  archTok : Nat
  nr : Nat
  args : Nat → Nat

/-- Loading a context field into the 32-bit accumulator. -/
def loadField (ctx : SyscallCtx) : BpfField → Nat
  | BpfField.archToken => ctx.archTok
  | BpfField.syscallNr => ctx.nr
  | BpfField.argLow i => ctx.args i % 2 ^ 32
  | BpfField.argHigh i => ctx.args i / 2 ^ 32 % 2 ^ 32

/-- Fuelled small-step execution of a filter program: program counter and
accumulator; `jeq` continues at `pc+1+jt` on match and `pc+1+jf` on
mismatch; `ret` resolves the invocation to an action. -/
def runFrom (prog : List Instr) (ctx : SyscallCtx) :
    Nat → Nat → Nat → Option Action
  | 0, _, _ => none
  | fuel + 1, pc, acc =>
    match prog.get? pc with
    | none => none
    | some (Instr.ld f) => runFrom prog ctx fuel (pc + 1) (loadField ctx f)
    | some (Instr.jeq k jt jf) =>
      if acc = k then runFrom prog ctx fuel (pc + 1 + jt) acc
      else runFrom prog ctx fuel (pc + 1 + jf) acc
    | some (Instr.ret a) => some a

/-- Resolving one syscall invocation against a compiled filter.  All jumps
are forward, so the program length bounds the number of executed
instructions. -/
def runFilter (prog : List Instr) (ctx : SyscallCtx) : Option Action :=
  runFrom prog ctx prog.length 0 0

/-- The policy `main` builds (source lines 56–93): the chosen architecture,
default action Allow, and two rules on `socket`: arg0 = AF_INET (2) →
Deny(EPERM = 1) and arg0 = AF_INET6 (10) → Deny(EPERM = 1). -/
def netBlockPolicy (a : Arch) : Policy :=
  { architecture := a
    defaultAction := Action.allow
    rules :=
      [ { syscallNumber := socketNr a
          comparisons := [{ argumentIndex := 0, value := 2 }]
          action := Action.deny 1 },
        { syscallNumber := socketNr a
          comparisons := [{ argumentIndex := 0, value := 10 }]
          action := Action.deny 1 } ] }

/-- Modelled from the spec: §4.3's fixed-width binary encoding, the
`struct sock_filter` layout of `seccomp_export_bpf`: 16-bit opcode, 8-bit
jump-true offset, 8-bit jump-false offset, 32-bit operand, little-endian. -/
def bytes16 (n : Nat) : List Nat :=
  [n % 2 ^ 8, n / 2 ^ 8 % 2 ^ 8]

/-- Little-endian byte decomposition of a 32-bit operand. -/
def bytes32 (n : Nat) : List Nat :=
  [n % 2 ^ 8, n / 2 ^ 8 % 2 ^ 8, n / 2 ^ 16 % 2 ^ 8, n / 2 ^ 24 % 2 ^ 8]

/-- Byte offset of each loadable field in the kernel's `seccomp_data`
structure (nr at 0, arch at 4, args from 16, 8 bytes each,
little-endian halves). -/
def fieldOffset : BpfField → Nat
  | BpfField.syscallNr => 0
  | BpfField.archToken => 4
  | BpfField.argLow i => 16 + 8 * i
  | BpfField.argHigh i => 16 + 8 * i + 4

/-- Kernel return-value encoding of each action (`SECCOMP_RET_ALLOW`,
`SECCOMP_RET_ERRNO | errno`, `SECCOMP_RET_TRAP`, `SECCOMP_RET_KILL`). -/
def actionCode : Action → Nat
  | Action.allow => 0x7fff0000
  | Action.deny e => 0x00050000 + e % 2 ^ 16
  | Action.trap => 0x00030000
  | Action.kill => 0

/-- Modelled from the spec: serializing one instruction into its 8-byte
`sock_filter` record (opcodes `BPF_LD|BPF_W|BPF_ABS` = 0x20,
`BPF_JMP|BPF_JEQ|BPF_K` = 0x15, `BPF_RET|BPF_K` = 0x06). -/
def encodeInstr : Instr → List Nat
  | Instr.ld f => bytes16 0x20 ++ [0, 0] ++ bytes32 (fieldOffset f)
  | Instr.jeq k jt jf => bytes16 0x15 ++ [jt % 2 ^ 8, jf % 2 ^ 8] ++ bytes32 k
  | Instr.ret a => bytes16 0x06 ++ [0, 0] ++ bytes32 (actionCode a)

/-- Modelled from the spec: the exporter's byte sequence (§4.3), each
instruction's fixed-width record in program order. -/
def exportBytes (prog : List Instr) : List Nat :=
  (prog.map encodeInstr).flatten

/-- C1: for the policy `main` builds (chosen architecture, default Allow,
deny `socket` with EPERM when arg0 is AF_INET (2) or AF_INET6 (10)), the
compiled filter resolves, on any invocation carrying the target
architecture's token: `socket(AF_INET, ...)` to Deny(EPERM),
`socket(AF_UNIX, ...)` (arg0 = 1) to Allow, and any syscall other than
`socket` to Allow. -/
theorem netBlockFilter_resolves_socket_families (a : Arch) (ctx : SyscallCtx)
    (harch : ctx.archTok = scmpArchToken a) :
    (ctx.nr = socketNr a → ctx.args 0 = 2 →
      runFilter (compile (netBlockPolicy a)) ctx = some (Action.deny 1)) ∧
    (ctx.nr = socketNr a → ctx.args 0 = 1 →
      runFilter (compile (netBlockPolicy a)) ctx = some Action.allow) ∧
    (ctx.nr ≠ socketNr a →
      runFilter (compile (netBlockPolicy a)) ctx = some Action.allow) := by
  cases a <;>
  · simp only [socketNr, scmpArchToken] at *
    refine ⟨fun h1 h2 => ?_, fun h1 h2 => ?_, fun h1 => ?_⟩ <;>
      simp [runFilter, compile, netBlockPolicy, compileRule, compileComparison,
        runFrom, loadField, harch, h1, scmpArchToken, socketNr, *]

/-- Witness for C1: concrete x86-64 invocations — `socket` with arg0 = 2
is denied with errno 1, `socket` with arg0 = 1 is allowed, and syscall 57
(not `socket`) is allowed. -/
theorem netBlockFilter_resolves_socket_families_witness :
    runFilter (compile (netBlockPolicy Arch.x86_64))
      ⟨0xc000003e, 41, fun i => if i = 0 then 2 else 0⟩ =
        some (Action.deny 1) ∧
    runFilter (compile (netBlockPolicy Arch.x86_64))
      ⟨0xc000003e, 41, fun i => if i = 0 then 1 else 0⟩ = some Action.allow ∧
    runFilter (compile (netBlockPolicy Arch.x86_64))
      ⟨0xc000003e, 57, fun _ => 0⟩ = some Action.allow :=
  ⟨(netBlockFilter_resolves_socket_families Arch.x86_64 _ rfl).1 rfl rfl,
   (netBlockFilter_resolves_socket_families Arch.x86_64 _ rfl).2.1 rfl rfl,
   (netBlockFilter_resolves_socket_families Arch.x86_64 _ rfl).2.2 (by decide)⟩

/-- C2: on any invocation whose architecture token differs from the
policy's single target architecture, the compiled filter resolves to the
terminal kill action and never to Allow, for every syscall number and all
argument values. -/
theorem archMismatch_resolves_kill (a : Arch) (ctx : SyscallCtx)
    (h : ctx.archTok ≠ scmpArchToken a) :
    runFilter (compile (netBlockPolicy a)) ctx = some Action.kill ∧
    runFilter (compile (netBlockPolicy a)) ctx ≠ some Action.allow := by
  cases a <;>
  · simp only [scmpArchToken] at h
    simp [runFilter, compile, netBlockPolicy, compileRule, compileComparison,
      runFrom, loadField, scmpArchToken, h]

/-- Witness for C2: an invocation carrying the aarch64 token against the
x86-64 filter is killed, even though its syscall number and arguments would
otherwise be allowed. -/
theorem archMismatch_resolves_kill_witness :
    runFilter (compile (netBlockPolicy Arch.x86_64))
      ⟨0xc00000b7, 57, fun _ => 0⟩ = some Action.kill :=
  (archMismatch_resolves_kill Arch.x86_64 _ (by decide)).1

/-- C3 (failing input): when every step through the rule additions and the
`open` succeeds but `seccomp_export_bpf` fails (return code −5), `main`
exits with code 1 while the output file — created and truncated by
`open(O_CREAT|O_WRONLY|O_TRUNC)` — is still present at the output path and
does not contain the full filter; the code never unlinks it or marks it
invalid. -/
theorem exportFailure_leaves_truncated_file :
    (runMain ⟨3, "x64", true, 0, 0, 0, 0, true, -5⟩).exitCode = 1 ∧
    (runMain ⟨3, "x64", true, 0, 0, 0, 0, true, -5⟩).filePresent = true ∧
    (runMain ⟨3, "x64", true, 0, 0, 0, 0, true, -5⟩).fileComplete = false := by
  decide

/-- C4: `parseArch` accepts exactly "x64" (as `SCMP_ARCH_X86_64`) and
"arm64" (as `SCMP_ARCH_AARCH64`) and rejects every other string; when the
architecture is rejected, `main` fails with the unknown-architecture error
and exit code 1 before the seccomp context is initialized and before the
output file is opened or created. -/
theorem parseArch_exhaustive_and_fails_early :
    parseArch "x64" = some Arch.x86_64 ∧
    parseArch "arm64" = some Arch.aarch64 ∧
    (parseArch "x64").map scmpArchToken = some 0xc000003e ∧
    (parseArch "arm64").map scmpArchToken = some 0xc00000b7 ∧
    (∀ s, s ≠ "x64" → s ≠ "arm64" → parseArch s = none) ∧
    (∀ e, e.argc = 3 → parseArch e.archStr = none →
      (runMain e).error = some MainError.unknownArchitecture ∧
      (runMain e).exitCode = 1 ∧ (runMain e).ctxInitialized = false ∧
      (runMain e).fdOpened = false ∧ (runMain e).filePresent = false) := by
  refine ⟨by decide, by decide, by decide, by decide, ?_, ?_⟩
  · intro s h1 h2
    unfold parseArch
    rw [if_neg h1, if_neg h2]
  · intro e h1 h2
    unfold runMain
    rw [if_neg (by simp [h1]), h2]
    simp

/-- Witness for C4: the unsupported string "mips" is rejected, and a run
invoked with it reports the unknown-architecture error without touching
context or file. -/
theorem parseArch_exhaustive_and_fails_early_witness :
    parseArch "mips" = none ∧
    (runMain ⟨3, "mips", true, 0, 0, 0, 0, true, 0⟩).error =
      some MainError.unknownArchitecture :=
  ⟨parseArch_exhaustive_and_fails_early.2.2.2.2.1 "mips"
      (by decide) (by decide),
   (parseArch_exhaustive_and_fails_early.2.2.2.2.2
      ⟨3, "mips", true, 0, 0, 0, 0, true, 0⟩ rfl (by decide)).1⟩

/-- C5: for every policy, instruction 0 of the compiled output loads the
architecture token, instruction 1 compares it to the policy's target
architecture, and every load of the syscall number sits at index ≥ 2 —
the architecture is validated before any syscall-number comparison. -/
theorem archCheck_is_instruction_zero (p : Policy) :
    (compile p).get? 0 = some (Instr.ld BpfField.archToken) ∧
    (compile p).get? 1 = some (Instr.jeq (scmpArchToken p.architecture) 0
      ((p.rules.map compileRule).flatten ++
        [Instr.ret p.defaultAction]).length) ∧
    (∀ i, (compile p).get? i = some (Instr.ld BpfField.syscallNr) → 2 ≤ i) := by
  refine ⟨rfl, rfl, ?_⟩
  intro i h
  by_contra hlt
  push_neg at hlt
  interval_cases i <;> simp [compile] at h

/-- Witness for C5: the x86-64 net-block program starts with the
architecture load, and its syscall-number load at index 2 satisfies the
lower bound. -/
theorem archCheck_is_instruction_zero_witness :
    (compile (netBlockPolicy Arch.x86_64)).get? 0 =
      some (Instr.ld BpfField.archToken) ∧ 2 ≤ 2 :=
  ⟨(archCheck_is_instruction_zero (netBlockPolicy Arch.x86_64)).1,
   (archCheck_is_instruction_zero (netBlockPolicy Arch.x86_64)).2.2 2
      (by decide)⟩

/-- C6: compilation and export are deterministic — structurally equal
policies compile to the same instruction sequence and serialize to
byte-identical output (the model is a pure function of the policy; the
source consults no other input). -/
theorem compile_deterministic (p q : Policy) (h : p = q) :
    compile p = compile q ∧
    exportBytes (compile p) = exportBytes (compile q) := by
  subst h
  exact ⟨rfl, rfl⟩

/-- Witness for C6: two structurally equal copies of the x86-64 net-block
policy compile and export identically. -/
theorem compile_deterministic_witness :
    compile (netBlockPolicy Arch.x86_64) =
      compile (netBlockPolicy Arch.x86_64) ∧
    exportBytes (compile (netBlockPolicy Arch.x86_64)) =
      exportBytes (compile (netBlockPolicy Arch.x86_64)) :=
  compile_deterministic _ _ rfl

/-- C7: on every exit path of `main` taken after the output file descriptor
was acquired, `close(fd)` is called before the program terminates — both on
export failure and on success. -/
theorem fd_closed_on_every_exit_path (e : Env)
    (h : (runMain e).fdOpened = true) : (runMain e).fdClosed = true := by
  revert h
  unfold runMain
  split
  · simp_all
  · split
    · simp_all
    · split_ifs <;> simp_all

/-- Witness for C7: a fully successful run opens the output file and closes
it before exiting. -/
theorem fd_closed_on_every_exit_path_witness :
    (runMain ⟨3, "x64", true, 0, 0, 0, 0, true, 0⟩).fdClosed = true :=
  fd_closed_on_every_exit_path ⟨3, "x64", true, 0, 0, 0, 0, true, 0⟩
    (by decide)

/-- C8 (counterexample): `main` does log on its own behalf — on the run
where `seccomp_init` fails, the program both fails (exit code 1) and prints
an error message to stderr, refuting "the core never logs on its own
behalf" for this program's failure paths. -/
theorem failure_path_logs_to_stderr :
    (runMain ⟨3, "x64", false, 0, 0, 0, 0, true, 0⟩).exitCode = 1 ∧
    (runMain ⟨3, "x64", false, 0, 0, 0, 0, true, 0⟩).stderrLogged = true := by
  decide

/-- C8 (amended): every run either succeeds with exit code 0, no error and
no stderr output, or fails with exit code 1, a typed error value for the
failing step, and an error message logged to stderr; the process always
terminates by returning from `main` (exit code 0 or 1), never by aborting. -/
theorem failures_exit_one_with_typed_error_and_stderr_log (e : Env) :
    ((runMain e).exitCode = 0 ∧ (runMain e).error = none ∧
      (runMain e).stderrLogged = false) ∨
    ((runMain e).exitCode = 1 ∧ (runMain e).error.isSome = true ∧
      (runMain e).stderrLogged = true) := by
  unfold runMain
  split
  · simp_all
  · split
    · simp_all
    · split_ifs <;> simp_all

/-- C9: `main` exits with code 0 exactly when every step succeeds — two
command-line arguments, a known architecture, context initialization,
architecture configuration (`seccomp_arch_remove` may return `-ENOENT`),
both rule additions, the `open`, and the export; every failure path exits
with code 1 (by C8's dichotomy, the exit code is always 0 or 1). -/
theorem exitCode_zero_iff_allStepsOk (e : Env) :
    (runMain e).exitCode = 0 ↔ allStepsOk e := by
  unfold runMain allStepsOk
  split
  · simp_all
  · split
    · simp_all
    · split_ifs <;> (simp_all; try omega)

/-- C10: the filesystem is untouched until the policy is fully built — if
any step before the `open` (argument count, architecture parsing, context
initialization, architecture configuration, either rule addition) fails,
the output file is neither opened nor created nor truncated. -/
theorem no_file_before_policy_built (e : Env) (h : ¬ stepsBeforeOpenOk e) :
    (runMain e).fdOpened = false ∧ (runMain e).filePresent = false := by
  unfold runMain
  unfold stepsBeforeOpenOk at h
  split
  · simp_all
  · split
    · simp_all
    · split_ifs <;> (simp_all; try omega)

/-- Witness for C10: when the AF_INET rule addition fails, no file is
opened or created. -/
theorem no_file_before_policy_built_witness :
    (runMain ⟨3, "x64", true, 0, 0, -1, 0, true, 0⟩).fdOpened = false ∧
    (runMain ⟨3, "x64", true, 0, 0, -1, 0, true, 0⟩).filePresent = false :=
  no_file_before_policy_built ⟨3, "x64", true, 0, 0, -1, 0, true, 0⟩
    (by decide)

end SeccompNetBlock
